import Mathlib

/-!
Shallow embedding of the cart client in `src/assets/global.js` of
`shopify-theme-skeleton`.

Modelling conventions:
* A JSON value (`Json`) stands for the JavaScript values placed in request
  bodies and returned from `response.json()`.  Objects are finite lists of
  key/value pairs in insertion order, matching `JSON.stringify`.
* The network is an oracle `Env : Nat → FetchResult`: the `k`-th `fetch`
  performed by a run receives `env k`.  A `FetchResult` is either a settled
  `Response` (with HTTP status, the outcome of `.json()`, and the `.text()`
  body) or a transport-level rejection.
* Each `async function` becomes a function from the oracle and a position to
  an `OpRun`: its settled result (`Except JsError α`), the list of HTTP
  requests it issued in order, the `console.error` log entries it produced,
  and the next oracle position.
* JavaScript `Error` objects are the inductive `JsError`:
  `statusError s` is `new Error("HTTP error! status: " ++ s)` thrown on
  `!response.ok`, `transport m` a rejection of `fetch` itself, and
  `parse m` a rejection of `response.json()`.
-/

inductive Json where
  | null
  | bool (b : Bool)
  | num (n : Int)
  | str (s : String)
  | arr (items : List Json)
  | obj (fields : List (String × Json))
  deriving Repr

/-- JavaScript `Error` values thrown or rejected inside the cart client. -/
inductive JsError where
  | statusError (status : Nat)
  | transport (msg : String)
  | parse (msg : String)
  deriving Repr

/-- The message of the `Error` built at a `!response.ok` check:
`` new Error(`HTTP error! status: ${response.status}`) ``. -/
def JsError.statusMessage (status : Nat) : String :=
  "HTTP error! status: " ++ toString status

/-- A settled HTTP response: its status, what `response.json()` yields
(parsed value or a parse rejection), and what `response.text()` yields. -/
structure Response where
  status : Nat
  jsonBody : Except String Json
  textBody : String
  deriving Repr

/-- `Response.ok` of the Fetch API: status in the inclusive range 200–299. -/
def Response.isOk (r : Response) : Bool :=
  decide (200 ≤ r.status) && decide (r.status ≤ 299)

/-- Outcome of one `await fetch(...)`: a settled response, or a rejection of
the fetch promise itself (network failure). -/
inductive FetchResult where
  | ok (resp : Response)
  | err (msg : String)
  deriving Repr

/-- The network oracle: the `k`-th fetch of a run observes `env k`. -/
def Env : Type := Nat → FetchResult

/-- One HTTP request as issued by `fetch(url, options)`. -/
structure Request where
  method : String
  url : String
  headers : List (String × String)
  body : Option Json
  deriving Repr

/-- The observable outcome of running one cart-client operation. -/
structure OpRun (α : Type) where
  result : Except JsError α
  requests : List Request
  log : List (String × JsError)
  next : Nat
  deriving Repr

/-! ### `encodeURIComponent`

ECMA-262 `encodeURIComponent`: characters in the unreserved set
`A–Z a–z 0–9 - _ . ! ~ * ' ( )` pass through; every other character is
replaced by the `%XX` (uppercase hex) encoding of each of its UTF-8 bytes. -/

def uriUnreservedMarks : List Char :=
  ['-', '_', '.', '!', '~', '*', Char.ofNat 39, '(', ')']

def isUriUnreserved (c : Char) : Bool :=
  (c.isUpper || c.isLower || c.isDigit) || uriUnreservedMarks.contains c

/-- Uppercase hexadecimal digit for `n < 16`. -/
def hexDigit (n : Nat) : Char :=
  if n < 10 then Char.ofNat (48 + n) else Char.ofNat (55 + n)

/-- UTF-8 bytes of a character, as natural numbers below 256. -/
def utf8Bytes (c : Char) : List Nat :=
  let n := c.toNat
  if n < 0x80 then [n]
  else if n < 0x800 then
    [0xC0 + n / 64, 0x80 + n % 64]
  else if n < 0x10000 then
    [0xE0 + n / 4096, 0x80 + (n / 64) % 64, 0x80 + n % 64]
  else
    [0xF0 + n / 262144, 0x80 + (n / 4096) % 64, 0x80 + (n / 64) % 64,
      0x80 + n % 64]

def percentByte (b : Nat) : String :=
  String.mk ['%', hexDigit (b / 16), hexDigit (b % 16)]

def encodeChar (c : Char) : String :=
  if isUriUnreserved c then String.mk [c]
  else String.join ((utf8Bytes c).map percentByte)

def encodeURIComponent (s : String) : String :=
  String.join (s.data.map encodeChar)

/-! ### Request payloads

These mirror the object literals built inside `updateCart` and
`changeCartItem`.  A JavaScript conditional spread
`...(cond && { k: v })` contributes the pair `(k, v)` exactly when `cond`
is truthy, so each payload is the concatenation of its conditional parts
in source order. -/

/-- The `updatesPayload` local of `updateCart`: with `useLineNumbers` the
entries of `updates` are passed through
`Object.fromEntries(Object.entries(updates).map(([lineNumber, qty]) => [lineNumber, qty]))`,
otherwise `{ updates }` is used directly. -/
def updatesPayload (updates : List (String × Json)) (useLineNumbers : Bool) :
    List (String × Json) :=
  if useLineNumbers then
    [("updates", Json.obj (updates.map (fun p => (p.1, p.2))))]
  else
    [("updates", Json.obj updates)]

/-- The `requestData` object of `updateCart`.  `note` is a string (truthy
iff nonempty); `attributes` is an object whose keys and values are both
percent-encoded, spread only when `Object.keys(attributes).length > 0`. -/
def updateCartPayload (updates : List (String × Json)) (useLineNumbers : Bool)
    (note : String) (attributes : List (String × String)) :
    List (String × Json) :=
  updatesPayload updates useLineNumbers
    ++ (if note ≠ "" then [("note", Json.str (encodeURIComponent note))] else [])
    ++ (if attributes.length > 0 then
          [("attributes", Json.obj (attributes.map
            (fun p => (encodeURIComponent p.1,
                       Json.str (encodeURIComponent p.2)))))]
        else [])

/-- The `requestData` object of `changeCartItem`.  `useLine` selects the
`line` key over the `id` key; `properties` is spread (keys and values
percent-encoded) only when nonempty; `sellingPlan` has JSDoc type
`string|null` and is spread only when truthy, i.e. neither `null` nor the
empty string. -/
def changeCartItemPayload (lineOrId : Json) (quantity : Int) (useLine : Bool)
    (properties : List (String × String)) (sellingPlan : Option String) :
    List (String × Json) :=
  (if useLine then [("line", lineOrId)] else [("id", lineOrId)])
    ++ [("quantity", Json.num quantity)]
    ++ (if properties.length > 0 then
          [("properties", Json.obj (properties.map
            (fun p => (encodeURIComponent p.1,
                       Json.str (encodeURIComponent p.2)))))]
        else [])
    ++ (match sellingPlan with
        | some sp => if sp ≠ "" then [("selling_plan", Json.str sp)] else []
        | none => [])

/-- Key membership in a serialized object payload. -/
def hasKey (fields : List (String × Json)) (k : String) : Bool :=
  fields.any (fun p => p.1 == k)

/-- First value bound to a key in a serialized object payload. -/
def lookupKey (fields : List (String × Json)) (k : String) : Option Json :=
  (fields.find? (fun p => p.1 == k)).map (·.2)

/-! ### The operations -/

def jsonHeaders : List (String × String) := [("Content-Type", "application/json")]

/-- Embeds `fetchCart()`: `await fetch(root + 'cart.js')`, then
`await response.json()` is returned; on any error the function logs
`'Error fetching cart:'` and rethrows.  The source has no `response.ok`
check, so the HTTP status is never inspected. -/
def fetchCart (root : String) (env : Env) (k : Nat) : OpRun Json :=
  let req : Request := ⟨"GET", root ++ "cart.js", [], none⟩
  match env k with
  | .err m =>
      let e := JsError.transport m
      ⟨.error e, [req], [("Error fetching cart:", e)], k + 1⟩
  | .ok resp =>
      match resp.jsonBody with
      | .error m =>
          let e := JsError.parse m
          ⟨.error e, [req], [("Error fetching cart:", e)], k + 1⟩
      | .ok cart => ⟨.ok cart, [req], [], k + 1⟩

/-- `updateCart(updates, useLineNumbers = false, note = '', attributes = {})`:
POSTs `updateCartPayload` to `cart/update.js`, throws
`statusError` on `!response.ok`, otherwise returns `await response.json()`;
any error is logged as `'Error updating cart:'` and rethrown. -/
def updateCart (root : String) (env : Env) (k : Nat)
    (updates : List (String × Json)) (useLineNumbers : Bool := false)
    (note : String := "") (attributes : List (String × String) := []) :
    OpRun Json :=
  let requestData := Json.obj (updateCartPayload updates useLineNumbers note attributes)
  let req : Request := ⟨"POST", root ++ "cart/update.js", jsonHeaders, some requestData⟩
  match env k with
  | .err m =>
      let e := JsError.transport m
      ⟨.error e, [req], [("Error updating cart:", e)], k + 1⟩
  | .ok resp =>
      if resp.isOk then
        match resp.jsonBody with
        | .error m =>
            let e := JsError.parse m
            ⟨.error e, [req], [("Error updating cart:", e)], k + 1⟩
        | .ok cart => ⟨.ok cart, [req], [], k + 1⟩
      else
        let e := JsError.statusError resp.status
        ⟨.error e, [req], [("Error updating cart:", e)], k + 1⟩

/-- `changeCartItem(lineOrId, quantity, useLine = false, properties = {},
sellingPlan = null)`: POSTs `changeCartItemPayload` to `cart/change.js`,
throws `statusError` on `!response.ok`, otherwise returns
`await response.json()`; errors are logged as `'Error changing cart item:'`
and rethrown. -/
def changeCartItem (root : String) (env : Env) (k : Nat)
    (lineOrId : Json) (quantity : Int) (useLine : Bool := false)
    (properties : List (String × String) := [])
    (sellingPlan : Option String := none) : OpRun Json :=
  let requestData := Json.obj (changeCartItemPayload lineOrId quantity useLine properties sellingPlan)
  let req : Request := ⟨"POST", root ++ "cart/change.js", jsonHeaders, some requestData⟩
  match env k with
  | .err m =>
      let e := JsError.transport m
      ⟨.error e, [req], [("Error changing cart item:", e)], k + 1⟩
  | .ok resp =>
      if resp.isOk then
        match resp.jsonBody with
        | .error m =>
            let e := JsError.parse m
            ⟨.error e, [req], [("Error changing cart item:", e)], k + 1⟩
        | .ok cart => ⟨.ok cart, [req], [], k + 1⟩
      else
        let e := JsError.statusError resp.status
        ⟨.error e, [req], [("Error changing cart item:", e)], k + 1⟩

/-- `addToCart(items)`: POSTs `{ items }` to `cart/add.js`; on
`!response.ok` throws `statusError`; on success the add response body is
never read and the function returns `await fetchCart()`.  A failure inside
`fetchCart` propagates through `addToCart`'s own catch, which logs
`'Error adding item to cart:'` and rethrows the identical error. -/
def addToCart (root : String) (env : Env) (k : Nat) (items : List Json) :
    OpRun Json :=
  let req : Request := ⟨"POST", root ++ "cart/add.js", jsonHeaders,
    some (Json.obj [("items", Json.arr items)])⟩
  match env k with
  | .err m =>
      let e := JsError.transport m
      ⟨.error e, [req], [("Error adding item to cart:", e)], k + 1⟩
  | .ok resp =>
      if resp.isOk then
        let inner := fetchCart root env (k + 1)
        match inner.result with
        | .ok cart => ⟨.ok cart, req :: inner.requests, inner.log, inner.next⟩
        | .error e =>
            ⟨.error e, req :: inner.requests,
              inner.log ++ [("Error adding item to cart:", e)], inner.next⟩
      else
        let e := JsError.statusError resp.status
        ⟨.error e, [req], [("Error adding item to cart:", e)], k + 1⟩

/-- `clearCart()`: POSTs (no body) to `cart/clear.js`; on `!response.ok`
throws `statusError`; on success the clear response body is never read and
the function returns `await fetchCart()`.  A failure inside `fetchCart`
propagates through `clearCart`'s own catch, which logs
`'Error clearing cart:'` and rethrows the identical error. -/
def clearCart (root : String) (env : Env) (k : Nat) : OpRun Json :=
  let req : Request := ⟨"POST", root ++ "cart/clear.js", jsonHeaders, none⟩
  match env k with
  | .err m =>
      let e := JsError.transport m
      ⟨.error e, [req], [("Error clearing cart:", e)], k + 1⟩
  | .ok resp =>
      if resp.isOk then
        let inner := fetchCart root env (k + 1)
        match inner.result with
        | .ok cart => ⟨.ok cart, req :: inner.requests, inner.log, inner.next⟩
        | .error e =>
            ⟨.error e, req :: inner.requests,
              inner.log ++ [("Error clearing cart:", e)], inner.next⟩
      else
        let e := JsError.statusError resp.status
        ⟨.error e, [req], [("Error clearing cart:", e)], k + 1⟩

/-- `prepareShippingRates()`: POSTs (no headers, no body) to
`cart/prepare_shipping_rates.json`; on `!response.ok` throws
`statusError`; otherwise returns `await response.text()` (the endpoint
does not return JSON).  Errors are logged as
`'Error preparing shipping rates:'` and rethrown. -/
def prepareShippingRates (root : String) (env : Env) (k : Nat) :
    OpRun String :=
  let req : Request := ⟨"POST", root ++ "cart/prepare_shipping_rates.json", [], none⟩
  match env k with
  | .err m =>
      let e := JsError.transport m
      ⟨.error e, [req], [("Error preparing shipping rates:", e)], k + 1⟩
  | .ok resp =>
      if resp.isOk then
        ⟨.ok resp.textBody, [req], [], k + 1⟩
      else
        let e := JsError.statusError resp.status
        ⟨.error e, [req], [("Error preparing shipping rates:", e)], k + 1⟩

/-- `fetchShippingRates()`: GETs `cart/async_shipping_rates.json`; on
`!response.ok` throws `statusError`; otherwise returns
`await response.json()`.  Errors are logged as
`'Error fetching shipping rates:'` and rethrown. -/
def fetchShippingRates (root : String) (env : Env) (k : Nat) : OpRun Json :=
  let req : Request := ⟨"GET", root ++ "cart/async_shipping_rates.json", [], none⟩
  match env k with
  | .err m =>
      let e := JsError.transport m
      ⟨.error e, [req], [("Error fetching shipping rates:", e)], k + 1⟩
  | .ok resp =>
      if resp.isOk then
        match resp.jsonBody with
        | .error m =>
            let e := JsError.parse m
            ⟨.error e, [req], [("Error fetching shipping rates:", e)], k + 1⟩
        | .ok rates => ⟨.ok rates, [req], [], k + 1⟩
      else
        let e := JsError.statusError resp.status
        ⟨.error e, [req], [("Error fetching shipping rates:", e)], k + 1⟩

/-! ### Helper lemmas -/

theorem fetchCart_requests (root : String) (env : Env) (k : Nat) :
    (fetchCart root env k).requests = [⟨"GET", root ++ "cart.js", [], none⟩] := by
  cases h : env k with
  | err m => simp [fetchCart, h]
  | ok resp => cases hb : resp.jsonBody <;> simp [fetchCart, h, hb]

/-- An operation behaves like the shared `catch` blocks of `global.js`: if
it settles with an error, its last `console.error` entry carries the
operation's own label together with the identical error value, and a
successful run logs nothing. -/
def logsAndRethrows {α : Type} (run : OpRun α) (label : String) : Prop :=
  (∀ e, run.result = .error e → run.log.getLast? = some (label, e)) ∧
  (∀ v, run.result = .ok v → run.log = [])

theorem fetchCart_lr (root : String) (env : Env) (k : Nat) :
    logsAndRethrows (fetchCart root env k) "Error fetching cart:" := by
  cases h : env k with
  | err m => simp [logsAndRethrows, fetchCart, h]
  | ok resp => cases hb : resp.jsonBody <;>
      simp [logsAndRethrows, fetchCart, h, hb]

theorem updateCart_lr (root : String) (env : Env) (k : Nat)
    (updates : List (String × Json)) (useLineNumbers : Bool) (note : String)
    (attributes : List (String × String)) :
    logsAndRethrows (updateCart root env k updates useLineNumbers note attributes)
      "Error updating cart:" := by
  cases h : env k with
  | err m => simp [logsAndRethrows, updateCart, h]
  | ok resp =>
      cases hok : resp.isOk <;> cases hb : resp.jsonBody <;>
        simp [logsAndRethrows, updateCart, h, hok, hb]

theorem changeCartItem_lr (root : String) (env : Env) (k : Nat)
    (lineOrId : Json) (quantity : Int) (useLine : Bool)
    (properties : List (String × String)) (sellingPlan : Option String) :
    logsAndRethrows (changeCartItem root env k lineOrId quantity useLine properties sellingPlan)
      "Error changing cart item:" := by
  cases h : env k with
  | err m => simp [logsAndRethrows, changeCartItem, h]
  | ok resp =>
      cases hok : resp.isOk <;> cases hb : resp.jsonBody <;>
        simp [logsAndRethrows, changeCartItem, h, hok, hb]

theorem addToCart_lr (root : String) (env : Env) (k : Nat) (items : List Json) :
    logsAndRethrows (addToCart root env k items) "Error adding item to cart:" := by
  cases h : env k with
  | err m => simp [logsAndRethrows, addToCart, h]
  | ok resp =>
      cases hok : resp.isOk
      · simp [logsAndRethrows, addToCart, h, hok]
      · have hfl := (fetchCart_lr root env (k + 1)).2
        cases hfc : (fetchCart root env (k + 1)).result with
        | ok cart =>
            simp [logsAndRethrows, addToCart, h, hok, hfc, hfl cart hfc]
        | error e =>
            simp [logsAndRethrows, addToCart, h, hok, hfc]

theorem clearCart_lr (root : String) (env : Env) (k : Nat) :
    logsAndRethrows (clearCart root env k) "Error clearing cart:" := by
  cases h : env k with
  | err m => simp [logsAndRethrows, clearCart, h]
  | ok resp =>
      cases hok : resp.isOk
      · simp [logsAndRethrows, clearCart, h, hok]
      · have hfl := (fetchCart_lr root env (k + 1)).2
        cases hfc : (fetchCart root env (k + 1)).result with
        | ok cart =>
            simp [logsAndRethrows, clearCart, h, hok, hfc, hfl cart hfc]
        | error e =>
            simp [logsAndRethrows, clearCart, h, hok, hfc]

theorem prepareShippingRates_lr (root : String) (env : Env) (k : Nat) :
    logsAndRethrows (prepareShippingRates root env k)
      "Error preparing shipping rates:" := by
  cases h : env k with
  | err m => simp [logsAndRethrows, prepareShippingRates, h]
  | ok resp =>
      cases hok : resp.isOk <;>
        simp [logsAndRethrows, prepareShippingRates, h, hok]

theorem fetchShippingRates_lr (root : String) (env : Env) (k : Nat) :
    logsAndRethrows (fetchShippingRates root env k)
      "Error fetching shipping rates:" := by
  cases h : env k with
  | err m => simp [logsAndRethrows, fetchShippingRates, h]
  | ok resp =>
      cases hok : resp.isOk <;> cases hb : resp.jsonBody <;>
        simp [logsAndRethrows, fetchShippingRates, h, hok, hb]

theorem updateCart_requests (root : String) (env : Env) (k : Nat)
    (updates : List (String × Json)) (useLineNumbers : Bool) (note : String)
    (attributes : List (String × String)) :
    (updateCart root env k updates useLineNumbers note attributes).requests =
      [⟨"POST", root ++ "cart/update.js", jsonHeaders,
        some (Json.obj (updateCartPayload updates useLineNumbers note attributes))⟩] := by
  cases h : env k with
  | err m => simp [updateCart, h]
  | ok resp =>
      cases hok : resp.isOk <;> cases hb : resp.jsonBody <;>
        simp [updateCart, h, hok, hb]

theorem changeCartItem_requests (root : String) (env : Env) (k : Nat)
    (lineOrId : Json) (quantity : Int) (useLine : Bool)
    (properties : List (String × String)) (sellingPlan : Option String) :
    (changeCartItem root env k lineOrId quantity useLine properties sellingPlan).requests =
      [⟨"POST", root ++ "cart/change.js", jsonHeaders,
        some (Json.obj (changeCartItemPayload lineOrId quantity useLine properties sellingPlan))⟩] := by
  cases h : env k with
  | err m => simp [changeCartItem, h]
  | ok resp =>
      cases hok : resp.isOk <;> cases hb : resp.jsonBody <;>
        simp [changeCartItem, h, hok, hb]

theorem prepareShippingRates_requests (root : String) (env : Env) (k : Nat) :
    (prepareShippingRates root env k).requests =
      [⟨"POST", root ++ "cart/prepare_shipping_rates.json", [], none⟩] := by
  cases h : env k with
  | err m => simp [prepareShippingRates, h]
  | ok resp => cases hok : resp.isOk <;> simp [prepareShippingRates, h, hok]

theorem fetchShippingRates_requests (root : String) (env : Env) (k : Nat) :
    (fetchShippingRates root env k).requests =
      [⟨"GET", root ++ "cart/async_shipping_rates.json", [], none⟩] := by
  cases h : env k with
  | err m => simp [fetchShippingRates, h]
  | ok resp =>
      cases hok : resp.isOk <;> cases hb : resp.jsonBody <;>
        simp [fetchShippingRates, h, hok, hb]

theorem addToCart_requests_le (root : String) (env : Env) (k : Nat)
    (items : List Json) :
    (addToCart root env k items).requests.length ≤ 2 := by
  cases h : env k with
  | err m => simp [addToCart, h]
  | ok resp =>
      cases hok : resp.isOk
      · simp [addToCart, h, hok]
      · cases hfc : (fetchCart root env (k + 1)).result <;>
          simp [addToCart, h, hok, hfc, fetchCart_requests]

theorem clearCart_requests_le (root : String) (env : Env) (k : Nat) :
    (clearCart root env k).requests.length ≤ 2 := by
  cases h : env k with
  | err m => simp [clearCart, h]
  | ok resp =>
      cases hok : resp.isOk
      · simp [clearCart, h, hok]
      · cases hfc : (fetchCart root env (k + 1)).result <;>
          simp [clearCart, h, hok, hfc, fetchCart_requests]

/-! ### Concrete oracles used by witnesses and counterexamples -/

/-- An oracle whose every fetch settles with the same outcome. -/
def constEnv (r : FetchResult) : Env := fun _ => r

/-- Every fetch completes with status 404 and a JSON-parsable body. -/
def env404 : Env := constEnv (.ok ⟨404, .ok (Json.obj []), ""⟩)

/-- Every fetch completes with status 503. -/
def env503 : Env := constEnv (.ok ⟨503, .ok Json.null, ""⟩)

/-- Every fetch rejects at the transport level. -/
def envOffline : Env := constEnv (.err "offline")

/-- The first fetch succeeds with a body that is never read; every later
fetch succeeds with the JSON number 7. -/
def envTwoStep : Env := fun k =>
  if k = 0 then .ok ⟨200, .error "unread", ""⟩
  else .ok ⟨200, .ok (Json.num 7), ""⟩

/-! ### Claims -/

/-- Claim C1, counterexample.  The claim says every operation — `fetchCart`
included — rejects with a `statusError` carrying the HTTP status whenever
the request completes with a non-success status.  `fetchCart` has no
`response.ok` check: on a completed 404 response whose body parses as
JSON, it resolves with the parsed body and does not reject with
`statusError 404`. -/
theorem C1_counterexample_fetchCart_status_ignored :
    (fetchCart "/" env404 0).result = .ok (Json.obj []) ∧
    (fetchCart "/" env404 0).result ≠ .error (.statusError 404) :=
  ⟨rfl, by simp [fetchCart, env404, constEnv]⟩

/-- Claim C1, amended.  For the six operations that do check
`response.ok` — `updateCart`, `changeCartItem`, `addToCart`, `clearCart`,
`prepareShippingRates`, `fetchShippingRates` — a completed response with a
non-success status makes the operation reject with a `statusError`
carrying that exact status, and the operation performs no further
requests (its request trace has length one).  `fetchCart` is the
exception: it never inspects the status (see C9). -/
theorem C1_status_rejection (root : String) (env : Env) (k : Nat)
    (updates : List (String × Json)) (useLineNumbers : Bool) (note : String)
    (attributes properties : List (String × String)) (lineOrId : Json)
    (quantity : Int) (useLine : Bool) (sellingPlan : Option String)
    (items : List Json) (resp : Response)
    (h : env k = .ok resp) (hok : resp.isOk = false) :
    ((updateCart root env k updates useLineNumbers note attributes).result =
        .error (.statusError resp.status) ∧
      (updateCart root env k updates useLineNumbers note attributes).requests.length = 1) ∧
    ((changeCartItem root env k lineOrId quantity useLine properties sellingPlan).result =
        .error (.statusError resp.status) ∧
      (changeCartItem root env k lineOrId quantity useLine properties sellingPlan).requests.length = 1) ∧
    ((addToCart root env k items).result = .error (.statusError resp.status) ∧
      (addToCart root env k items).requests.length = 1) ∧
    ((clearCart root env k).result = .error (.statusError resp.status) ∧
      (clearCart root env k).requests.length = 1) ∧
    ((prepareShippingRates root env k).result = .error (.statusError resp.status) ∧
      (prepareShippingRates root env k).requests.length = 1) ∧
    ((fetchShippingRates root env k).result = .error (.statusError resp.status) ∧
      (fetchShippingRates root env k).requests.length = 1) := by
  refine ⟨⟨?_, ?_⟩, ⟨?_, ?_⟩, ⟨?_, ?_⟩, ⟨?_, ?_⟩, ⟨?_, ?_⟩, ⟨?_, ?_⟩⟩ <;>
    simp [updateCart, changeCartItem, addToCart, clearCart,
      prepareShippingRates, fetchShippingRates, h, hok]

/-- Claim C1 witness: on an oracle that always answers with status 503,
`updateCart` rejects with `statusError 503`. -/
theorem C1_status_rejection_witness :
    (updateCart "/" env503 0 [] false "" []).result =
      .error (.statusError 503) :=
  (C1_status_rejection "/" env503 0 [] false "" [] [] Json.null 0 false none []
    ⟨503, .ok Json.null, ""⟩ rfl rfl).1.1

/-- Claim C2: when the add request succeeds, `addToCart` issues exactly one
POST to `cart/add.js` followed by exactly one GET of `cart.js`, in that
order, and the value it settles with is the result of the follow-up
`fetchCart` — the add endpoint's own response body is discarded (the
conclusion does not depend on the add response's body). -/
theorem C2_addToCart_add_then_refetch (root : String) (env : Env) (k : Nat)
    (items : List Json) (resp : Response)
    (h : env k = .ok resp) (hok : resp.isOk = true) :
    (addToCart root env k items).requests =
      [⟨"POST", root ++ "cart/add.js", jsonHeaders,
         some (Json.obj [("items", Json.arr items)])⟩,
       ⟨"GET", root ++ "cart.js", [], none⟩] ∧
    (addToCart root env k items).result = (fetchCart root env (k + 1)).result := by
  unfold addToCart
  rw [h]
  simp only [hok, if_true]
  cases hfc : (fetchCart root env (k + 1)).result <;>
    simp [hfc, fetchCart_requests]

/-- Claim C2 witness: a concrete successful add followed by a fetch of the
JSON number 7. -/
theorem C2_addToCart_add_then_refetch_witness :
    (addToCart "/" envTwoStep 0 [Json.num 42]).requests =
      [⟨"POST", "/" ++ "cart/add.js", jsonHeaders,
         some (Json.obj [("items", Json.arr [Json.num 42])])⟩,
       ⟨"GET", "/" ++ "cart.js", [], none⟩] ∧
    (addToCart "/" envTwoStep 0 [Json.num 42]).result =
      (fetchCart "/" envTwoStep 1).result :=
  C2_addToCart_add_then_refetch "/" envTwoStep 0 [Json.num 42]
    ⟨200, .error "unread", ""⟩ rfl rfl

/-- Claim C3: in the serialized payloads of `updateCart` and
`changeCartItem`, each optional key is present if and only if the
corresponding argument is non-empty (for `note`, `attributes`,
`properties`) resp. non-null and non-empty (for `sellingPlan`, whose JSDoc
type is `string|null`); an absent field contributes no key at all. -/
theorem C3_optional_fields_present_iff (updates : List (String × Json))
    (useLineNumbers : Bool) (note : String)
    (attributes properties : List (String × String))
    (lineOrId : Json) (quantity : Int) (useLine : Bool)
    (sellingPlan : Option String) :
    (hasKey (updateCartPayload updates useLineNumbers note attributes) "note" = true
        ↔ note ≠ "") ∧
    (hasKey (updateCartPayload updates useLineNumbers note attributes) "attributes" = true
        ↔ attributes ≠ []) ∧
    (hasKey (changeCartItemPayload lineOrId quantity useLine properties sellingPlan)
        "properties" = true ↔ properties ≠ []) ∧
    (hasKey (changeCartItemPayload lineOrId quantity useLine properties sellingPlan)
        "selling_plan" = true ↔ sellingPlan ≠ none ∧ sellingPlan ≠ some "") := by
  refine ⟨?_, ?_, ?_, ?_⟩
  · cases useLineNumbers <;> by_cases hn : note = "" <;>
      rcases attributes with _ | ⟨a, as⟩ <;>
      simp [updateCartPayload, updatesPayload, hasKey, hn]
  · cases useLineNumbers <;> by_cases hn : note = "" <;>
      rcases attributes with _ | ⟨a, as⟩ <;>
      simp [updateCartPayload, updatesPayload, hasKey, hn]
  · rcases sellingPlan with _ | sp
    · cases useLine <;> rcases properties with _ | ⟨p, ps⟩ <;>
        simp [changeCartItemPayload, hasKey]
    · by_cases hsp : sp = "" <;> cases useLine <;>
        rcases properties with _ | ⟨p, ps⟩ <;>
        simp [changeCartItemPayload, hasKey, hsp]
  · rcases sellingPlan with _ | sp
    · cases useLine <;> rcases properties with _ | ⟨p, ps⟩ <;>
        simp [changeCartItemPayload, hasKey]
    · by_cases hsp : sp = "" <;> cases useLine <;>
        rcases properties with _ | ⟨p, ps⟩ <;>
        simp [changeCartItemPayload, hasKey, hsp]

/-- Claim C3 witness: a nonempty note yields a `note` key in the payload. -/
theorem C3_optional_fields_present_iff_witness :
    hasKey (updateCartPayload [] false "gift" []) "note" = true :=
  (C3_optional_fields_present_iff [] false "gift" [] [] Json.null 0 false
    none).1.mpr (by decide)

/-- Claim C4: every operation, on any failure (transport error, parse
failure, or non-success status), logs one `console.error` entry naming
that operation as its final log entry, carrying the identical error value
it then settles with; a successful run logs nothing.  No operation
retries: each single-request operation issues exactly one request, and
`addToCart` and `clearCart` issue at most two (their own plus the
follow-up `fetchCart`). -/
theorem C4_uniform_error_handling (root : String) (env : Env) (k : Nat)
    (updates : List (String × Json)) (useLineNumbers : Bool) (note : String)
    (attributes properties : List (String × String)) (lineOrId : Json)
    (quantity : Int) (useLine : Bool) (sellingPlan : Option String)
    (items : List Json) :
    logsAndRethrows (fetchCart root env k) "Error fetching cart:" ∧
    logsAndRethrows (updateCart root env k updates useLineNumbers note attributes)
      "Error updating cart:" ∧
    logsAndRethrows (changeCartItem root env k lineOrId quantity useLine properties sellingPlan)
      "Error changing cart item:" ∧
    logsAndRethrows (addToCart root env k items) "Error adding item to cart:" ∧
    logsAndRethrows (clearCart root env k) "Error clearing cart:" ∧
    logsAndRethrows (prepareShippingRates root env k) "Error preparing shipping rates:" ∧
    logsAndRethrows (fetchShippingRates root env k) "Error fetching shipping rates:" ∧
    (fetchCart root env k).requests.length = 1 ∧
    (updateCart root env k updates useLineNumbers note attributes).requests.length = 1 ∧
    (changeCartItem root env k lineOrId quantity useLine properties sellingPlan).requests.length = 1 ∧
    (addToCart root env k items).requests.length ≤ 2 ∧
    (clearCart root env k).requests.length ≤ 2 ∧
    (prepareShippingRates root env k).requests.length = 1 ∧
    (fetchShippingRates root env k).requests.length = 1 :=
  ⟨fetchCart_lr root env k,
   updateCart_lr root env k updates useLineNumbers note attributes,
   changeCartItem_lr root env k lineOrId quantity useLine properties sellingPlan,
   addToCart_lr root env k items,
   clearCart_lr root env k,
   prepareShippingRates_lr root env k,
   fetchShippingRates_lr root env k,
   by simp [fetchCart_requests],
   by simp [updateCart_requests],
   by simp [changeCartItem_requests],
   addToCart_requests_le root env k items,
   clearCart_requests_le root env k,
   by simp [prepareShippingRates_requests],
   by simp [fetchShippingRates_requests]⟩

/-- Claim C4 witness: a transport failure during `updateCart` ends the log
with the `updateCart` diagnostic carrying the identical error. -/
theorem C4_uniform_error_handling_witness :
    (updateCart "/" envOffline 0 [] false "" []).log.getLast? =
      some ("Error updating cart:", JsError.transport "offline") :=
  (C4_uniform_error_handling "/" envOffline 0 [] false "" [] [] Json.null 0
    false none []).2.1.1 (JsError.transport "offline") rfl

/-- Claim C5: note, attribute key/value pairs and line-property key/value
pairs are placed in the outgoing payload percent-encoded with
`encodeURIComponent`; in particular `encodeURIComponent "gift wrap"` is
`"gift%20wrap"`, and an empty note contributes no `note` key. -/
theorem C5_percent_encoding (updates : List (String × Json))
    (useLineNumbers : Bool) (note : String)
    (attributes properties : List (String × String))
    (lineOrId : Json) (quantity : Int) (useLine : Bool)
    (sellingPlan : Option String) :
    (note ≠ "" →
      lookupKey (updateCartPayload updates useLineNumbers note attributes) "note" =
        some (Json.str (encodeURIComponent note))) ∧
    (lookupKey (updateCartPayload updates useLineNumbers "" attributes) "note" = none) ∧
    (attributes ≠ [] →
      lookupKey (updateCartPayload updates useLineNumbers note attributes) "attributes" =
        some (Json.obj (attributes.map (fun p =>
          (encodeURIComponent p.1, Json.str (encodeURIComponent p.2)))))) ∧
    (properties ≠ [] →
      lookupKey (changeCartItemPayload lineOrId quantity useLine properties sellingPlan)
          "properties" =
        some (Json.obj (properties.map (fun p =>
          (encodeURIComponent p.1, Json.str (encodeURIComponent p.2)))))) ∧
    encodeURIComponent "gift wrap" = "gift%20wrap" := by
  refine ⟨?_, ?_, ?_, ?_, rfl⟩
  · intro hn
    cases useLineNumbers <;> rcases attributes with _ | ⟨a, as⟩ <;>
      simp [updateCartPayload, updatesPayload, lookupKey, hn]
  · cases useLineNumbers <;> rcases attributes with _ | ⟨a, as⟩ <;>
      simp [updateCartPayload, updatesPayload, lookupKey]
  · intro ha
    cases useLineNumbers <;> by_cases hn : note = "" <;>
      rcases attributes with _ | ⟨a, as⟩ <;>
      simp [updateCartPayload, updatesPayload, lookupKey, hn] <;> simp_all
  · intro hp
    rcases properties with _ | ⟨p, ps⟩
    · exact absurd rfl hp
    · rcases sellingPlan with _ | sp
      · cases useLine <;> simp [changeCartItemPayload, lookupKey]
      · by_cases hsp : sp = "" <;> cases useLine <;>
          simp [changeCartItemPayload, lookupKey, hsp]

/-- Claim C5 witness: the note `"gift wrap"` appears in the payload as the
string `"gift%20wrap"`. -/
theorem C5_percent_encoding_witness :
    lookupKey (updateCartPayload [] false "gift wrap" []) "note" =
      some (Json.str "gift%20wrap") :=
  (C5_percent_encoding [] false "gift wrap" [] [] Json.null 0 false none).1
    (by decide)

/-- Claim C6: `updateCart` with `useLineNumbers = true`, updates
`{1: 2, 2: 0}`, empty note and empty attributes serializes exactly the
payload `{updates: {1: 2, 2: 0}}`, with no `note` and no `attributes`
key. -/
theorem C6_updateCart_concrete_payload :
    updateCartPayload [("1", Json.num 2), ("2", Json.num 0)] true "" [] =
      [("updates", Json.obj [("1", Json.num 2), ("2", Json.num 0)])] := rfl

/-- Claim C7: `changeCartItem` with `useLine = true`, `lineOrId = 2`,
`quantity = 3`, empty properties and null selling plan serializes exactly
the payload `{line: 2, quantity: 3}`, with no `id`, `properties` or
`selling_plan` key. -/
theorem C7_changeCartItem_concrete_payload :
    changeCartItemPayload (Json.num 2) 3 true [] none =
      [("line", Json.num 2), ("quantity", Json.num 3)] := rfl

/-- Claim C8: when the clear request succeeds, `clearCart` settles with
exactly the value an independent `fetchCart` run against the same
remaining oracle would settle with. -/
theorem C8_clearCart_returns_refetched_cart (root : String) (env : Env)
    (k : Nat) (resp : Response)
    (h : env k = .ok resp) (hok : resp.isOk = true) :
    (clearCart root env k).result = (fetchCart root env (k + 1)).result := by
  unfold clearCart
  rw [h]
  simp only [hok, if_true]
  cases hfc : (fetchCart root env (k + 1)).result <;> simp [hfc]

/-- Claim C8 witness: a concrete successful clear followed by a fetch. -/
theorem C8_clearCart_returns_refetched_cart_witness :
    (clearCart "/" envTwoStep 0).result = (fetchCart "/" envTwoStep 1).result :=
  C8_clearCart_returns_refetched_cart "/" envTwoStep 0
    ⟨200, .error "unread", ""⟩ rfl rfl

/-- Claim C9: `fetchCart` never inspects the HTTP status.  Whenever the
response completes and its body parses as JSON, `fetchCart` resolves with
the parsed value — whatever the status; it rejects exactly when the fetch
itself fails (transport) or the body fails to parse. -/
theorem C9_fetchCart_ignores_status (root : String) (env : Env) (k : Nat) :
    (∀ resp cart, env k = .ok resp → resp.jsonBody = .ok cart →
        (fetchCart root env k).result = .ok cart) ∧
    (∀ resp m, env k = .ok resp → resp.jsonBody = .error m →
        (fetchCart root env k).result = .error (.parse m)) ∧
    (∀ m, env k = .err m →
        (fetchCart root env k).result = .error (.transport m)) := by
  refine ⟨?_, ?_, ?_⟩
  · intro resp cart h hb
    simp [fetchCart, h, hb]
  · intro resp m h hb
    simp [fetchCart, h, hb]
  · intro m h
    simp [fetchCart, h]

/-- Claim C9 witness: on a completed 500 response with a JSON body,
`fetchCart` resolves with the parsed body. -/
theorem C9_fetchCart_ignores_status_witness :
    (fetchCart "/" (constEnv (.ok ⟨500, .ok (Json.num 1), ""⟩)) 0).result =
      .ok (Json.num 1) :=
  (C9_fetchCart_ignores_status "/" (constEnv (.ok ⟨500, .ok (Json.num 1), ""⟩)) 0).1
    ⟨500, .ok (Json.num 1), ""⟩ (Json.num 1) rfl rfl

/-- Claim C10: the `useLineNumbers` flag has no effect on the serialized
payload of `updateCart` — the line-number branch maps each entry of
`updates` to itself. -/
theorem C10_useLineNumbers_no_effect (updates : List (String × Json))
    (note : String) (attributes : List (String × String)) :
    updateCartPayload updates true note attributes =
      updateCartPayload updates false note attributes := by
  simp [updateCartPayload, updatesPayload]

/-- Claim C10 witness: both flag values produce the same concrete payload. -/
theorem C10_useLineNumbers_no_effect_witness :
    updateCartPayload [("1", Json.num 2)] true "n" [("a", "b")] =
      updateCartPayload [("1", Json.num 2)] false "n" [("a", "b")] :=
  C10_useLineNumbers_no_effect [("1", Json.num 2)] "n" [("a", "b")]
